import Mathlib

/-
  Shallow embedding of the Book-recommender front-end scripts.

  The repository's logic lives in four page scripts; the claims concern the
  canonical (most feature-complete) variants:
    * genre-filter paginated search   (results.js, second copy, lines 336-482;
      identical text in src/unnamed/part_000 lines 450-616);
    * book paginated search           (results.js lines 570-720; identical in
      src/unnamed/part_000 lines 718-869);
    * non-paginated book search       (results.js lines 238-332 performSearch);
    * autocomplete suggestions        (search_autocomplete.js).

  DOM containers are modelled as lists of nodes; `innerHTML = ""` clears the
  list, `appendChild` appends.  A fetch together with response parsing is
  modelled by a `FetchOutcome` value passed to the handler: `ok` is a 2xx
  response with parsed JSON, `httpError` a non-2xx status (the code throws and
  the catch branch runs), `netError` a transport failure (the promise rejects
  and the catch branch runs).  The handlers are total Lean functions because
  every variant wraps its body in try/catch.
-/

namespace BookRec

/-- JavaScript `String.prototype.trim()`: strip leading and trailing
whitespace.  (Defined on the character list so that it evaluates by kernel
reduction; the library `String.trim` is defined by well-founded recursion on
byte positions and does not.) -/
def jsTrim (s : String) : String :=
  String.mk
    (((s.data.dropWhile Char.isWhitespace).reverse.dropWhile
        Char.isWhitespace).reverse)

/-- A book record as consumed by the card-rendering code: `key`, `title`,
`authors` (the other JSON fields do not influence the claims' behavior). -/
structure Book where
  key : String
  title : String
  authors : List String
  deriving Repr, DecidableEq

/-- A DOM node appended to a result container by the scripts. -/
inductive Node where
  | card (b : Book)
  | loadingBlock
  | emptyMsg (text : String)
  | errorMsg (text : String)
  | endMsg (text : String)
  deriving Repr, DecidableEq

/-- Is this node a rendered result card? -/
def Node.isCard : Node → Bool
  | Node.card _ => true
  | _ => false

/-- Is this node an error message (class "error-message")? -/
def Node.isErrorMsg : Node → Bool
  | Node.errorMsg _ => true
  | _ => false

/-- Is this node the end-of-results indicator (class "end-message")? -/
def Node.isEndMsg : Node → Bool
  | Node.endMsg _ => true
  | _ => false

/-- The books rendered as cards in a container, in order. -/
def cardsOf (ns : List Node) : List Book :=
  ns.filterMap fun n =>
    match n with
    | Node.card b => some b
    | _ => none

/-- Outcome of a `fetch` call together with `await resp.json()`. -/
inductive FetchOutcome (α : Type) where
  | ok (value : α)
  | httpError (status : Nat)
  | netError (message : String)
  deriving Repr, DecidableEq

/-- A fetch outcome that enters the catch branch (non-2xx or transport). -/
def FetchOutcome.isError {α : Type} : FetchOutcome α → Bool
  | FetchOutcome.ok _ => false
  | FetchOutcome.httpError _ => true
  | FetchOutcome.netError _ => true

/- ---------------------------------------------------------------------------
   Genre-based filter (results.js lines 336-482 / part_000 lines 450-616)
--------------------------------------------------------------------------- -/

/-- Module-level state of the genre-filter page script: `selectedGenres` (a
Set, modelled as a duplicate-free-by-use list), the `continueBtn.disabled`
flag, the `offset` counter, the `#results` container `out`, and the
`loadMoreBtn` visibility (`style.display` being "block" vs "none"). -/
structure GenreState where
  selectedGenres : List String
  continueDisabled : Bool
  offset : Nat
  out : List Node
  loadMoreVisible : Bool
  deriving Repr, DecidableEq

/-- `const limit = 20;` -/
def genreLimit : Nat := 20

/-- State at page load: empty selection, offset 0, empty results container,
`loadMoreBtn.style.display = "none"`. -/
def initGenre : GenreState :=
  { selectedGenres := []
    continueDisabled := true
    offset := 0
    out := []
    loadMoreVisible := false }

/-- Genre button click handler: toggles the genre in `selectedGenres` and then
sets `continueBtn.disabled = selectedGenres.size === 0`. -/
def toggleGenre (g : String) (s : GenreState) : GenreState :=
  let sel :=
    if s.selectedGenres.contains g then s.selectedGenres.erase g
    else g :: s.selectedGenres
  { s with selectedGenres := sel, continueDisabled := sel.isEmpty }

/-- "Find Books" (`continueBtn`) click handler, up to the `fetchBooks()` call:
`offset = 0; out.innerHTML = ""; loadMoreBtn.style.display = "none";`. -/
def genreSubmit (s : GenreState) : GenreState :=
  { s with offset := 0, out := [], loadMoreVisible := false }

/-- The catch branch of the genre `fetchBooks`: on the first page replace the
result area with an error message, otherwise hide the Load More button and
leave the container untouched. -/
def genreOnError (msg : String) (s : GenreState) : GenreState :=
  if s.offset = 0 then
    { s with out := [Node.errorMsg ("Error: " ++ msg)] }
  else
    { s with loadMoreVisible := false }

/-- The genre `fetchBooks()` body, with the network interaction abstracted
into `resp`.  Mirrors: show the loading indicator when `offset === 0`; on a
2xx response, handle the empty first page, clear the loading indicator, append
one card per book, advance `offset` by `books.length` and set the Load More
visibility by `books.length < limit ? "none" : "block"`; a non-2xx status
throws `Error ${resp.status}` which the catch branch renders. -/
def genreFetchBooks (resp : FetchOutcome (List Book)) (s : GenreState) :
    GenreState :=
  let s := if s.offset = 0 then { s with out := [Node.loadingBlock] } else s
  match resp with
  | FetchOutcome.ok books =>
    if s.offset = 0 ∧ books.length = 0 then
      { s with out :=
          [Node.emptyMsg "No books found matching your selected genres."] }
    else
      let s := if s.offset = 0 then { s with out := [] } else s
      let s := { s with out := s.out ++ books.map Node.card }
      let s := { s with offset := s.offset + books.length }
      { s with loadMoreVisible :=
          if books.length < genreLimit then false else true }
  | FetchOutcome.httpError status =>
      genreOnError ("Error " ++ toString status) s
  | FetchOutcome.netError msg =>
      genreOnError msg s

/-- A sequence of successful page responses processed by `fetchBooks`
(the submit's first page followed by Load More clicks). -/
def genreRunPages (pages : List (List Book)) (s : GenreState) : GenreState :=
  pages.foldl (fun st p => genreFetchBooks (FetchOutcome.ok p) st) s

/- ---------------------------------------------------------------------------
   Book-based paginated search
   (results.js lines 570-720 / part_000 lines 718-869)
--------------------------------------------------------------------------- -/

/-- Module-level state of the paginated book-search script: `offset`,
`currentQuery`, the `#results` container, and the Load More button's
visibility (`style.display`) and `disabled` flag. -/
structure BookSearchState where
  offset : Nat
  currentQuery : String
  results : List Node
  loadMoreVisible : Bool
  loadMoreDisabled : Bool
  deriving Repr, DecidableEq

/-- `const pageSize = 20;` -/
def bookPageSize : Nat := 20

/-- State at page load: `offset = 0`, `currentQuery = ""`, the button hidden
and disabled. -/
def initBook : BookSearchState :=
  { offset := 0
    currentQuery := ""
    results := []
    loadMoreVisible := false
    loadMoreDisabled := true }

/-- The `reset` branch at the top of the book `fetchBooks(true)`: reset
`offset`, remember the query, clear the container, hide and disable Load
More; then (second `if (reset)`) show the loading indicator. -/
def bookResetPhase (title : String) (s : BookSearchState) : BookSearchState :=
  let s :=
    { s with offset := 0, currentQuery := title, results := [],
             loadMoreVisible := false, loadMoreDisabled := true }
  { s with results := [Node.loadingBlock] }

/-- The book `fetchBooks(reset)` body with the network interaction abstracted
into `resp`.  Mirrors: early return on a blank input; the reset / non-reset
preamble; on a 2xx response the empty-first-page message, the card append
loop, showing Load More exactly when `books.length === pageSize` and
otherwise appending the "No more books found." end message, then
`offset += books.length`; the catch branch clears the container, appends an
error node and hides Load More; the finally branch re-enables the button. -/
def bookFetchBooks (reset : Bool) (inputValue : String)
    (resp : FetchOutcome (List Book)) (s : BookSearchState) :
    BookSearchState :=
  let title := jsTrim inputValue
  if title = "" then s
  else
    let s :=
      if reset then bookResetPhase title s
      else { s with loadMoreDisabled := true }
    let s :=
      match resp with
      | FetchOutcome.ok books =>
        if reset = true ∧ books.length = 0 then
          { s with results :=
              [Node.emptyMsg ("No similar books found for " ++ title)] }
        else
          let s := if reset then { s with results := [] } else s
          let s := { s with results := s.results ++ books.map Node.card }
          let s :=
            if books.length = bookPageSize then
              { s with loadMoreVisible := true }
            else
              { s with loadMoreVisible := false,
                       results := s.results ++
                         [Node.endMsg "No more books found."] }
          { s with offset := s.offset + books.length }
      | FetchOutcome.httpError status =>
          { s with
              results :=
                [Node.errorMsg ("Error: Server returned " ++ toString status)]
              loadMoreVisible := false }
      | FetchOutcome.netError msg =>
          { s with
              results := [Node.errorMsg ("Error: " ++ msg)]
              loadMoreVisible := false }
    { s with loadMoreDisabled := false }

/- ---------------------------------------------------------------------------
   Book-based non-paginated search (results.js lines 238-332, performSearch;
   same logic in part_000 lines 363-445)
--------------------------------------------------------------------------- -/

/-- `performSearch()`: every branch overwrites the `#results` container, so
the handler is a function from the input value and the fetch outcome to the
final container content.  A blank title shows an inline validation error and
makes no network call; an empty result array shows the empty-state message;
otherwise one card per book is appended to the cleared container; failures
render the error message. -/
def performSearch (inputValue : String) (resp : FetchOutcome (List Book)) :
    List Node :=
  let title := jsTrim inputValue
  if title = "" then [Node.errorMsg "Please enter a book title"]
  else
    match resp with
    | FetchOutcome.ok books =>
      if books.length = 0 then
        [Node.emptyMsg ("No similar books found for " ++ title)]
      else
        books.map Node.card
    | FetchOutcome.httpError status =>
        [Node.errorMsg ("Error: Error " ++ toString status)]
    | FetchOutcome.netError msg =>
        [Node.errorMsg ("Error: " ++ msg)]

/- ---------------------------------------------------------------------------
   Autocomplete suggestions (search_autocomplete.js)
--------------------------------------------------------------------------- -/

/-- An author suggestion record `{name}`. -/
structure Suggestion where
  name : String
  deriving Repr, DecidableEq

/-- A book suggestion record `{title, cover_id?, author_name?}`. -/
structure BookSuggestion where
  title : String
  cover_id : Option Nat
  author_name : Option (List String)
  deriving Repr, DecidableEq

/-- A suggestion panel: its rendered `innerHTML` content and whether
`style.display` is "block" (visible) or "none". -/
structure Panel (α : Type) where
  content : List α
  visible : Bool
  deriving Repr, DecidableEq

/-- `displayAuthorSuggestions(authors)`: hide the panel on an empty list,
otherwise replace its content wholesale and show it. -/
def displayAuthorSuggestions (authors : List Suggestion)
    (p : Panel Suggestion) : Panel Suggestion :=
  if authors.length = 0 then { p with visible := false }
  else { content := authors, visible := true }

/-- `displayBookSuggestions(books)`: hide the panel on an empty list,
otherwise replace its content wholesale and show it. -/
def displayBookSuggestions (books : List BookSuggestion)
    (p : Panel BookSuggestion) : Panel BookSuggestion :=
  if books.length = 0 then { p with visible := false }
  else { content := books, visible := true }

/-- `fetchAuthorSuggestions(query)` with the network interaction abstracted
into `resp`.  The first component records whether a network call was issued.
Queries shorter than 2 characters hide the panel and return before fetching;
a non-2xx status or a rejected fetch is only logged (`console.error`), leaving
the panel untouched; the function is total because the body is wrapped in
try/catch, so no exception escapes. -/
def fetchAuthorSuggestions (query : String)
    (resp : FetchOutcome (List Suggestion)) (p : Panel Suggestion) :
    Bool × Panel Suggestion :=
  if query.length < 2 then (false, { p with visible := false })
  else
    match resp with
    | FetchOutcome.ok authors => (true, displayAuthorSuggestions authors p)
    | FetchOutcome.httpError _ => (true, p)
    | FetchOutcome.netError _ => (true, p)

/-- `fetchBookSuggestions(query)`, analogous to `fetchAuthorSuggestions`. -/
def fetchBookSuggestions (query : String)
    (resp : FetchOutcome (List BookSuggestion)) (p : Panel BookSuggestion) :
    Bool × Panel BookSuggestion :=
  if query.length < 2 then (false, { p with visible := false })
  else
    match resp with
    | FetchOutcome.ok books => (true, displayBookSuggestions books p)
    | FetchOutcome.httpError _ => (true, p)
    | FetchOutcome.netError _ => (true, p)

/-- The debounced input handler calls the fetch with the trimmed value:
`fetchAuthorSuggestions(authorInput.value.trim())`. -/
def authorInputHandler (value : String)
    (resp : FetchOutcome (List Suggestion)) (p : Panel Suggestion) :
    Bool × Panel Suggestion :=
  fetchAuthorSuggestions (jsTrim value) resp p

/-- The debounced input handler calls the fetch with the trimmed value:
`fetchBookSuggestions(bookInput.value.trim())`. -/
def bookInputHandler (value : String)
    (resp : FetchOutcome (List BookSuggestion)) (p : Panel BookSuggestion) :
    Bool × Panel BookSuggestion :=
  fetchBookSuggestions (jsTrim value) resp p

/-- The continuation that runs when an in-flight author-suggest response
arrives: for a 2xx response the code calls `displayAuthorSuggestions`
unconditionally — there is no request-sequence counter or cancellation, so
the continuation cannot tell a stale response from a fresh one; error
responses are only logged. -/
def onSuggestResponse (resp : FetchOutcome (List Suggestion))
    (p : Panel Suggestion) : Panel Suggestion :=
  match resp with
  | FetchOutcome.ok authors => displayAuthorSuggestions authors p
  | FetchOutcome.httpError _ => p
  | FetchOutcome.netError _ => p

/-- Event-loop semantics for several in-flight suggestion requests: each
response runs its continuation when it arrives, so the panel is folded over
the responses in arrival order. -/
def processArrivals (arrivals : List (FetchOutcome (List Suggestion)))
    (p : Panel Suggestion) : Panel Suggestion :=
  arrivals.foldl (fun panel r => onSuggestResponse r panel) p

/-- A concrete book record used in concrete scenarios. -/
def bookDune : Book :=
  { key := "OL893415W", title := "Dune", authors := ["Frank Herbert"] }

/-- A second concrete book record used in concrete scenarios. -/
def bookEmma : Book :=
  { key := "OL768823W", title := "Emma", authors := ["Jane Austen"] }

/- ---------------------------------------------------------------------------
   Helper lemmas
--------------------------------------------------------------------------- -/

theorem cardsOf_append (xs ys : List Node) :
    cardsOf (xs ++ ys) = cardsOf xs ++ cardsOf ys := by
  simp [cardsOf, List.filterMap_append]

theorem cardsOf_map_card (bs : List Book) :
    cardsOf (bs.map Node.card) = bs := by
  induction bs with
  | nil => rfl
  | cons b bs ih => simp [cardsOf, List.filterMap] at ih ⊢; exact ih

theorem cardsOf_endMsg (t : String) : cardsOf [Node.endMsg t] = [] := rfl

/-- A successful page processed while `offset ≠ 0` (a Load More response)
appends one card per book and advances `offset` by the page length. -/
theorem genre_step_pos (p : List Book) (s : GenreState) (h : s.offset ≠ 0) :
    (genreFetchBooks (FetchOutcome.ok p) s).out = s.out ++ p.map Node.card ∧
    (genreFetchBooks (FetchOutcome.ok p) s).offset = s.offset + p.length ∧
    (genreFetchBooks (FetchOutcome.ok p) s).offset ≠ 0 := by
  simp [genreFetchBooks, h]

/-- An empty first page only swaps in the empty-state message. -/
theorem genre_step_zero_empty (s : GenreState) (h : s.offset = 0) :
    genreFetchBooks (FetchOutcome.ok []) s =
      { s with out :=
          [Node.emptyMsg "No books found matching your selected genres."] } := by
  simp [genreFetchBooks, h]

/-- A non-empty first page clears the container, renders one card per book
and advances `offset` from 0 to the page length. -/
theorem genre_step_zero_nonempty (p : List Book) (s : GenreState)
    (h : s.offset = 0) (hp : p ≠ []) :
    (genreFetchBooks (FetchOutcome.ok p) s).out = p.map Node.card ∧
    (genreFetchBooks (FetchOutcome.ok p) s).offset = p.length := by
  simp [genreFetchBooks, h, List.length_eq_zero, hp]

/-- Once `offset ≠ 0`, a run of successful pages appends exactly their
concatenation to the rendered cards. -/
theorem genre_run_cards_pos (pages : List (List Book)) :
    ∀ s : GenreState, s.offset ≠ 0 →
      cardsOf (genreRunPages pages s).out = cardsOf s.out ++ pages.flatten := by
  induction pages with
  | nil => intro s _; simp [genreRunPages]
  | cons p ps ih =>
    intro s h
    have hstep := genre_step_pos p s h
    have := ih (genreFetchBooks (FetchOutcome.ok p) s) hstep.2.2
    simp only [genreRunPages, List.foldl_cons] at this ⊢
    rw [this, hstep.1, cardsOf_append, cardsOf_map_card]
    simp

/-- From a first-page state (offset 0, no rendered cards), a run of
successful pages renders exactly their concatenation. -/
theorem genre_run_cards_zero (pages : List (List Book)) :
    ∀ s : GenreState, s.offset = 0 → cardsOf s.out = [] →
      cardsOf (genreRunPages pages s).out = pages.flatten := by
  induction pages with
  | nil => intro s _ hc; simpa [genreRunPages] using hc
  | cons p ps ih =>
    intro s h0 hc
    simp only [genreRunPages, List.foldl_cons, List.flatten_cons]
    by_cases hp : p = []
    · subst hp
      rw [genre_step_zero_empty s h0]
      have := ih { s with out :=
          [Node.emptyMsg "No books found matching your selected genres."] }
        h0 (by simp [cardsOf, List.filterMap])
      simpa [genreRunPages] using this
    · have hstep := genre_step_zero_nonempty p s h0 hp
      have hpos : (genreFetchBooks (FetchOutcome.ok p) s).offset ≠ 0 := by
        rw [hstep.2]; simpa [List.length_eq_zero] using hp
      have := genre_run_cards_pos ps (genreFetchBooks (FetchOutcome.ok p) s)
        hpos
      simp only [genreRunPages] at this
      rw [this, hstep.1, cardsOf_map_card]

/- ---------------------------------------------------------------------------
   Claim theorems
--------------------------------------------------------------------------- -/

/-- Claim C1, counterexample.  Two autocomplete fetches are in flight: the
earlier (stale) request will answer with the suggestion "Stale", the later
request with "Fresh".  The later fetch resolves first, then the earlier one
resolves; the handlers run in arrival order.  The final panel shows "Stale":
the stale response overwrote the panel, contradicting the claim. -/
theorem stale_response_overwrites_panel :
    (processArrivals
        [FetchOutcome.ok [{ name := "Fresh" }],
         FetchOutcome.ok [{ name := "Stale" }]]
        { content := [], visible := false }).content = [{ name := "Stale" }] ∧
    ({ name := "Stale" } : Suggestion) ≠ { name := "Fresh" } := by
  decide

/-- Claim C1, amended.  There is no request-sequence counter and no
cancellation of in-flight requests (the debounce only clears the pending
timer before a fetch is issued), so responses are applied to the suggestion
panel in arrival order: after any sequence of in-flight responses, the panel
shows the rendering of the last-arriving successful non-empty response,
whether or not it is stale. -/
theorem suggest_panel_last_arrival_wins
    (arrivals : List (FetchOutcome (List Suggestion))) (a : List Suggestion)
    (p : Panel Suggestion) (ha : a ≠ []) :
    processArrivals (arrivals ++ [FetchOutcome.ok a]) p =
      { content := a, visible := true } := by
  simp [processArrivals, List.foldl_append, onSuggestResponse,
    displayAuthorSuggestions, List.length_eq_zero, ha]

/-- Witness for `suggest_panel_last_arrival_wins` at a concrete input. -/
theorem suggest_panel_last_arrival_wins_witness :
    processArrivals
        [FetchOutcome.ok [{ name := "Stale" }],
         FetchOutcome.ok [{ name := "Fresh" }]]
        { content := [], visible := false } =
      { content := [{ name := "Fresh" }], visible := true } :=
  suggest_panel_last_arrival_wins [FetchOutcome.ok [{ name := "Stale" }]]
    [{ name := "Fresh" }] { content := [], visible := false } (by decide)

/-- Claim C2, counterexample.  In the paginated book search a first page of
20 books renders 20 cards and shows Load More; a load-more fetch then fails
with a network error, and the container is wiped to the error message alone:
the previously rendered results are NOT left intact, contradicting the
claim. -/
theorem book_loadmore_failure_discards_results :
    (cardsOf (bookFetchBooks true "dune"
        (FetchOutcome.ok (List.replicate 20 bookDune)) initBook).results).length
        = 20 ∧
    (bookFetchBooks true "dune"
        (FetchOutcome.ok (List.replicate 20 bookDune))
        initBook).loadMoreVisible = true ∧
    (bookFetchBooks false "dune" (FetchOutcome.netError "Failed to fetch")
        (bookFetchBooks true "dune"
          (FetchOutcome.ok (List.replicate 20 bookDune)) initBook)).results =
      [Node.errorMsg "Error: Failed to fetch"] := by
  decide

/-- Claim C2, amended.  On any fetch failure: the genre filter replaces the
result area with an error message on the first page, and on a subsequent page
hides the load-more affordance leaving the rendered results intact; the book
search replaces the whole result area with the error message on EVERY
failure, first page or load-more, losing previously rendered results, and
hides load-more.  Both handlers catch the failure, so nothing throws past
this boundary (the model functions are total). -/
theorem fetch_failure_error_handling
    (s : GenreState) (resp : FetchOutcome (List Book))
    (sb : BookSearchState) (reset : Bool) (title : String)
    (respb : FetchOutcome (List Book))
    (herr : resp.isError = true) (herrb : respb.isError = true)
    (htitle : jsTrim title ≠ "") :
    (s.offset = 0 →
      ∃ m, (genreFetchBooks resp s).out = [Node.errorMsg m]) ∧
    (s.offset ≠ 0 →
      (genreFetchBooks resp s).out = s.out ∧
      (genreFetchBooks resp s).loadMoreVisible = false) ∧
    (∃ m, (bookFetchBooks reset title respb sb).results = [Node.errorMsg m] ∧
      (bookFetchBooks reset title respb sb).loadMoreVisible = false) := by
  refine ⟨?_, ?_, ?_⟩
  · intro h0
    cases resp with
    | ok v => simp [FetchOutcome.isError] at herr
    | httpError status =>
        exact ⟨"Error: " ++ ("Error " ++ toString status),
          by simp [genreFetchBooks, genreOnError, h0]⟩
    | netError m =>
        exact ⟨"Error: " ++ m, by simp [genreFetchBooks, genreOnError, h0]⟩
  · intro h0
    cases resp with
    | ok v => simp [FetchOutcome.isError] at herr
    | httpError status => simp [genreFetchBooks, genreOnError, h0]
    | netError m => simp [genreFetchBooks, genreOnError, h0]
  · cases respb with
    | ok v => simp [FetchOutcome.isError] at herrb
    | httpError status =>
        exact ⟨"Error: Server returned " ++ toString status,
          by cases reset <;> simp [bookFetchBooks, bookResetPhase, htitle]⟩
    | netError m =>
        exact ⟨"Error: " ++ m, by cases reset <;>
          simp [bookFetchBooks, bookResetPhase, htitle]⟩

/-- Witness for `fetch_failure_error_handling` at concrete inputs. -/
theorem fetch_failure_error_handling_witness :
    ((initGenre.offset = 0 →
      ∃ m, (genreFetchBooks (FetchOutcome.netError "boom") initGenre).out =
        [Node.errorMsg m]) ∧
    (initGenre.offset ≠ 0 →
      (genreFetchBooks (FetchOutcome.netError "boom") initGenre).out =
        initGenre.out ∧
      (genreFetchBooks (FetchOutcome.netError "boom")
        initGenre).loadMoreVisible = false) ∧
    (∃ m, (bookFetchBooks false "dune" (FetchOutcome.netError "boom")
        initBook).results = [Node.errorMsg m] ∧
      (bookFetchBooks false "dune" (FetchOutcome.netError "boom")
        initBook).loadMoreVisible = false)) :=
  fetch_failure_error_handling initGenre (FetchOutcome.netError "boom")
    initBook false "dune" (FetchOutcome.netError "boom")
    (by decide) (by decide) (by decide)

/-- Claim C3, counterexample.  A legitimate sequence (loadMore happens only
while the button is visible): page 0 of the genre filter returns 20 copies of
the same book, so Load More is shown; the next page returns that book again.
The rendered list holds the same book 21 times — items DO appear twice, no
deduplication by key is performed, contradicting the claim. -/
theorem rendered_list_not_deduplicated :
    (genreRunPages [List.replicate 20 bookDune]
        (genreSubmit initGenre)).loadMoreVisible = true ∧
    (cardsOf (genreRunPages [List.replicate 20 bookDune, [bookDune]]
        (genreSubmit initGenre)).out).count bookDune = 21 := by
  decide

/-- Claim C3, amended.  After a submit, for any sequence of page results the
rendered card list is exactly the concatenation of the pages received — so
its length equals the sum of the page lengths — but it is NOT deduplicated:
an item occurring in several pages is rendered once per occurrence.
Likewise, each load-more response of the book search appends exactly its
items to the rendered cards. -/
theorem rendered_cards_eq_pages_flatten (pages : List (List Book))
    (s : GenreState) (sb : BookSearchState) (title : String)
    (books : List Book) (htitle : jsTrim title ≠ "") :
    (cardsOf (genreRunPages pages (genreSubmit s)).out = pages.flatten ∧
      (cardsOf (genreRunPages pages (genreSubmit s)).out).length =
        (pages.map List.length).sum) ∧
    cardsOf (bookFetchBooks false title (FetchOutcome.ok books) sb).results =
      cardsOf sb.results ++ books := by
  have hgen : cardsOf (genreRunPages pages (genreSubmit s)).out =
      pages.flatten :=
    genre_run_cards_zero pages (genreSubmit s) (by simp [genreSubmit])
      (by simp [genreSubmit, cardsOf])
  refine ⟨⟨hgen, ?_⟩, ?_⟩
  · rw [hgen, List.length_flatten]
  · by_cases hps : books.length = bookPageSize <;>
      simp [bookFetchBooks, htitle, hps, cardsOf_append, cardsOf_map_card,
        cardsOf_endMsg]

/-- Witness for `rendered_cards_eq_pages_flatten` at concrete inputs. -/
theorem rendered_cards_eq_pages_flatten_witness :
    (cardsOf (genreRunPages [[bookDune], [bookEmma]]
        (genreSubmit initGenre)).out = [bookDune, bookEmma] ∧
      (cardsOf (genreRunPages [[bookDune], [bookEmma]]
        (genreSubmit initGenre)).out).length =
        ([[bookDune], [bookEmma]].map List.length).sum) ∧
    cardsOf (bookFetchBooks false "dune" (FetchOutcome.ok [bookEmma])
        initBook).results = cardsOf initBook.results ++ [bookEmma] :=
  rendered_cards_eq_pages_flatten [[bookDune], [bookEmma]] initGenre
    initBook "dune" [bookEmma] (by decide)

/-- Claim C4 (confirmed).  After every successful page response: the genre
filter advances `offset` by exactly the number of items received and shows
Load More — the `hasMore` signal — exactly when the page was full
(`books.length = limit`, equivalent to "not fewer than pageSize" since a
page holds at most `limit` items); the book search advances `offset` by the
item count from its post-reset base and sets Load More visibility exactly
when `books.length = pageSize`.  The genre hypothesis `hinv` is the
reachable-flow fact that at offset 0 the Load More button is hidden (submit
hides it before the first page). -/
theorem offset_advance_hasMore_invariant
    (s : GenreState) (books : List Book)
    (hinv : s.offset = 0 → s.loadMoreVisible = false)
    (hlen : books.length ≤ genreLimit)
    (sb : BookSearchState) (reset : Bool) (title : String)
    (bbooks : List Book) (htitle : jsTrim title ≠ "") :
    ((genreFetchBooks (FetchOutcome.ok books) s).offset =
        s.offset + books.length ∧
      ((genreFetchBooks (FetchOutcome.ok books) s).loadMoreVisible = true ↔
        books.length = genreLimit)) ∧
    ((bookFetchBooks reset title (FetchOutcome.ok bbooks) sb).offset =
        (if reset then 0 else sb.offset) + bbooks.length ∧
      ((bookFetchBooks reset title
          (FetchOutcome.ok bbooks) sb).loadMoreVisible = true ↔
        bbooks.length = bookPageSize)) := by
  have hlen20 : books.length ≤ 20 := hlen
  constructor
  · by_cases h0 : s.offset = 0
    · by_cases hb : books.length = 0
      · rw [List.length_eq_zero] at hb
        subst hb
        rw [genre_step_zero_empty s h0]
        simp [h0, hinv h0, genreLimit]
      · have hb2 : books ≠ [] := by simpa [List.length_eq_zero] using hb
        constructor
        · rw [(genre_step_zero_nonempty books s h0 hb2).2, h0]
          omega
        · simp [genreFetchBooks, h0, List.length_eq_zero, hb2, genreLimit]
          omega
    · constructor
      · exact (genre_step_pos books s h0).2.1
      · simp [genreFetchBooks, h0, genreLimit]
        omega
  · cases reset with
    | true =>
      by_cases hb : bbooks.length = 0
      · rw [List.length_eq_zero] at hb
        subst hb
        simp [bookFetchBooks, bookResetPhase, htitle, bookPageSize]
      · by_cases hps : bbooks.length = 20 <;>
          simp [bookFetchBooks, bookResetPhase, htitle, hb, hps, bookPageSize]
    | false =>
      by_cases hps : bbooks.length = 20 <;>
        simp [bookFetchBooks, htitle, hps, bookPageSize]

/-- Witness for `offset_advance_hasMore_invariant` at concrete inputs. -/
theorem offset_advance_hasMore_invariant_witness :
    ((genreFetchBooks (FetchOutcome.ok [bookDune]) initGenre).offset =
        initGenre.offset + [bookDune].length ∧
      ((genreFetchBooks (FetchOutcome.ok [bookDune])
          initGenre).loadMoreVisible = true ↔
        [bookDune].length = genreLimit)) ∧
    ((bookFetchBooks true "dune" (FetchOutcome.ok [bookDune])
        initBook).offset = (if true then 0 else initBook.offset) +
          [bookDune].length ∧
      ((bookFetchBooks true "dune" (FetchOutcome.ok [bookDune])
          initBook).loadMoreVisible = true ↔
        [bookDune].length = bookPageSize)) :=
  offset_advance_hasMore_invariant initGenre [bookDune]
    (fun _ => rfl) (by decide) initBook true "dune" [bookDune] (by decide)

/-- Claim C5 (confirmed).  Every submit — the genre filter's Find Books click
and the reset phase of the book search — sets `offset` to 0 and leaves no
previously rendered card in the result container before the new results are
rendered. -/
theorem submit_resets_offset_and_clears (s : GenreState)
    (sb : BookSearchState) (title : String) :
    (genreSubmit s).offset = 0 ∧ cardsOf (genreSubmit s).out = [] ∧
    (bookResetPhase title sb).offset = 0 ∧
    cardsOf (bookResetPhase title sb).results = [] := by
  simp [genreSubmit, bookResetPhase, cardsOf]

/-- Claim C6, counterexample.  The exact scenario of the claim on the genre
filter: page 0 returns 20 items (hasMore true, button visible), the next
page returns 5 items (hasMore false, 25 cards rendered) — but NO
end-of-results message is shown: the genre filter never creates one, it only
hides the Load More button. -/
theorem genre_no_end_message :
    (genreRunPages [List.replicate 20 bookDune]
        (genreSubmit initGenre)).loadMoreVisible = true ∧
    (genreRunPages [List.replicate 20 bookDune, List.replicate 5 bookEmma]
        (genreSubmit initGenre)).loadMoreVisible = false ∧
    (cardsOf (genreRunPages
        [List.replicate 20 bookDune, List.replicate 5 bookEmma]
        (genreSubmit initGenre)).out).length = 25 ∧
    (genreRunPages [List.replicate 20 bookDune, List.replicate 5 bookEmma]
        (genreSubmit initGenre)).out.any Node.isEndMsg = false := by
  decide

/-- Claim C6, amended.  In the claim's scenario the genre filter ends with
hasMore false, the Load More button hidden and 25 rendered cards, but shows
no end-of-results indicator (it has none).  The end-of-results indicator
exists only in the book search, which appends "No more books found."
whenever a page returns fewer than `pageSize` items. -/
theorem end_of_results_behavior (books : List Book) (title : String)
    (sb : BookSearchState) (hlen : books.length < bookPageSize)
    (htitle : jsTrim title ≠ "") :
    ((genreRunPages [List.replicate 20 bookDune]
        (genreSubmit initGenre)).loadMoreVisible = true ∧
      (genreRunPages [List.replicate 20 bookDune, List.replicate 5 bookEmma]
        (genreSubmit initGenre)).loadMoreVisible = false ∧
      (cardsOf (genreRunPages
        [List.replicate 20 bookDune, List.replicate 5 bookEmma]
        (genreSubmit initGenre)).out).length = 25 ∧
      (genreRunPages [List.replicate 20 bookDune, List.replicate 5 bookEmma]
        (genreSubmit initGenre)).out.any Node.isEndMsg = false) ∧
    ((bookFetchBooks false title (FetchOutcome.ok books) sb).results.any
        Node.isEndMsg = true ∧
      (bookFetchBooks false title
        (FetchOutcome.ok books) sb).loadMoreVisible = false) := by
  constructor
  · decide
  · have hps : books.length ≠ bookPageSize := Nat.ne_of_lt hlen
    simp [bookFetchBooks, htitle, hps, Node.isEndMsg]

/-- Witness for `end_of_results_behavior` at concrete inputs. -/
theorem end_of_results_behavior_witness :
    ((genreRunPages [List.replicate 20 bookDune]
        (genreSubmit initGenre)).loadMoreVisible = true ∧
      (genreRunPages [List.replicate 20 bookDune, List.replicate 5 bookEmma]
        (genreSubmit initGenre)).loadMoreVisible = false ∧
      (cardsOf (genreRunPages
        [List.replicate 20 bookDune, List.replicate 5 bookEmma]
        (genreSubmit initGenre)).out).length = 25 ∧
      (genreRunPages [List.replicate 20 bookDune, List.replicate 5 bookEmma]
        (genreSubmit initGenre)).out.any Node.isEndMsg = false) ∧
    ((bookFetchBooks false "dune"
        (FetchOutcome.ok [bookEmma]) initBook).results.any
        Node.isEndMsg = true ∧
      (bookFetchBooks false "dune"
        (FetchOutcome.ok [bookEmma]) initBook).loadMoreVisible = false) :=
  end_of_results_behavior [bookEmma] "dune" initBook (by decide) (by decide)

/-- Claim C7 (confirmed).  For both the author and the book suggestion
inputs, a trimmed query shorter than 2 characters issues no network call
(first component `false`) and hides the suggestion panel. -/
theorem short_query_no_fetch (value : String)
    (resp1 : FetchOutcome (List Suggestion))
    (resp2 : FetchOutcome (List BookSuggestion))
    (p : Panel Suggestion) (q : Panel BookSuggestion)
    (hlen : (jsTrim value).length < 2) :
    (authorInputHandler value resp1 p).1 = false ∧
    (authorInputHandler value resp1 p).2.visible = false ∧
    (bookInputHandler value resp2 q).1 = false ∧
    (bookInputHandler value resp2 q).2.visible = false := by
  simp [authorInputHandler, bookInputHandler, fetchAuthorSuggestions,
    fetchBookSuggestions, hlen]

/-- Witness for `short_query_no_fetch` at a concrete input. -/
theorem short_query_no_fetch_witness :
    (authorInputHandler " a " (FetchOutcome.netError "down")
        { content := [], visible := true }).1 = false ∧
    (authorInputHandler " a " (FetchOutcome.netError "down")
        { content := [], visible := true }).2.visible = false ∧
    (bookInputHandler " a " (FetchOutcome.netError "down")
        { content := [], visible := true }).1 = false ∧
    (bookInputHandler " a " (FetchOutcome.netError "down")
        { content := [], visible := true }).2.visible = false :=
  short_query_no_fetch " a " (FetchOutcome.netError "down")
    (FetchOutcome.netError "down") { content := [], visible := true }
    { content := [], visible := true } (by decide)

/-- Claim C8 (confirmed).  A primary search whose first page parses to `[]`
renders exactly the empty-state message, which is a different node from the
error message (no error class): shown for the paginated book search's reset
fetch and the non-paginated `performSearch`. -/
theorem empty_first_page_empty_state (title input2 : String)
    (sb : BookSearchState) (h1 : jsTrim title ≠ "")
    (h2 : jsTrim input2 ≠ "") :
    (bookFetchBooks true title (FetchOutcome.ok []) sb).results =
      [Node.emptyMsg ("No similar books found for " ++ jsTrim title)] ∧
    (bookFetchBooks true title
      (FetchOutcome.ok []) sb).results.any Node.isErrorMsg = false ∧
    performSearch input2 (FetchOutcome.ok []) =
      [Node.emptyMsg ("No similar books found for " ++ jsTrim input2)] ∧
    (performSearch input2 (FetchOutcome.ok [])).any Node.isErrorMsg
      = false := by
  simp [bookFetchBooks, bookResetPhase, performSearch, h1, h2,
    Node.isErrorMsg]

/-- Witness for `empty_first_page_empty_state` at concrete inputs. -/
theorem empty_first_page_empty_state_witness :
    (bookFetchBooks true "xyz" (FetchOutcome.ok []) initBook).results =
      [Node.emptyMsg ("No similar books found for " ++ jsTrim "xyz")] ∧
    (bookFetchBooks true "xyz"
      (FetchOutcome.ok []) initBook).results.any Node.isErrorMsg = false ∧
    performSearch "xyz" (FetchOutcome.ok []) =
      [Node.emptyMsg ("No similar books found for " ++ jsTrim "xyz")] ∧
    (performSearch "xyz" (FetchOutcome.ok [])).any Node.isErrorMsg
      = false :=
  empty_first_page_empty_state "xyz" "xyz" initBook (by decide) (by decide)

/-- Claim C9 (confirmed).  A suggestion fetch that fails — non-2xx status or
network error — leaves the suggestion panel exactly as it was for both the
author and the book inputs; the handler catches the failure (the model is a
total function, nothing propagates), and only the primary search renders an
error state (`fetch_failure_error_handling`). -/
theorem suggestion_failure_swallowed (query : String)
    (resp1 : FetchOutcome (List Suggestion))
    (resp2 : FetchOutcome (List BookSuggestion))
    (p : Panel Suggestion) (q : Panel BookSuggestion)
    (hq : 2 ≤ query.length)
    (h1 : resp1.isError = true) (h2 : resp2.isError = true) :
    (fetchAuthorSuggestions query resp1 p).1 = true ∧
    (fetchAuthorSuggestions query resp1 p).2 = p ∧
    (fetchBookSuggestions query resp2 q).1 = true ∧
    (fetchBookSuggestions query resp2 q).2 = q := by
  have hq2 : ¬ query.length < 2 := by omega
  cases resp1 with
  | ok v => simp [FetchOutcome.isError] at h1
  | httpError st =>
    cases resp2 with
    | ok v => simp [FetchOutcome.isError] at h2
    | httpError st2 =>
        simp [fetchAuthorSuggestions, fetchBookSuggestions, hq2]
    | netError m2 =>
        simp [fetchAuthorSuggestions, fetchBookSuggestions, hq2]
  | netError m =>
    cases resp2 with
    | ok v => simp [FetchOutcome.isError] at h2
    | httpError st2 =>
        simp [fetchAuthorSuggestions, fetchBookSuggestions, hq2]
    | netError m2 =>
        simp [fetchAuthorSuggestions, fetchBookSuggestions, hq2]

/-- Witness for `suggestion_failure_swallowed` at concrete inputs. -/
theorem suggestion_failure_swallowed_witness :
    (fetchAuthorSuggestions "to" (FetchOutcome.httpError 500)
        { content := [{ name := "Tolkien" }], visible := true }).1 = true ∧
    (fetchAuthorSuggestions "to" (FetchOutcome.httpError 500)
        { content := [{ name := "Tolkien" }], visible := true }).2 =
      { content := [{ name := "Tolkien" }], visible := true } ∧
    (fetchBookSuggestions "to" (FetchOutcome.netError "down")
        { content := [], visible := false }).1 = true ∧
    (fetchBookSuggestions "to" (FetchOutcome.netError "down")
        { content := [], visible := false }).2 =
      { content := [], visible := false } :=
  suggestion_failure_swallowed "to" (FetchOutcome.httpError 500)
    (FetchOutcome.netError "down")
    { content := [{ name := "Tolkien" }], visible := true }
    { content := [], visible := false } (by decide) (by decide) (by decide)

/-- Claim C10 (confirmed).  After every genre-button click the Find Books
button is disabled exactly when the set of selected genres is empty: the
handler recomputes `continueBtn.disabled = selectedGenres.size === 0` after
each toggle, so every toggle re-establishes the correspondence. -/
theorem continue_disabled_iff_no_genres (s : GenreState) (g : String) :
    (toggleGenre g s).continueDisabled = true ↔
      (toggleGenre g s).selectedGenres = [] := by
  simp [toggleGenre, List.isEmpty_iff]

end BookRec
